import Mathlib

/-!
# EcommerceCheckout: shallow embedding and verification

A shallow embedding in Lean 4 of the discount-calculation pipeline of the
`EcommerceCheckout` repository (`ECommerceCheckout/enums.py`, `models.py`,
`repository.py`, `strategy.py`, `service.py`), together with theorems that
settle the specification's claims about it.

Modelling conventions:
* Python `Decimal` prices and percentages are modelled as rationals (`ℚ`).
  `Decimal(0.1)` in the source is the exact binary-float constant near 1/10;
  no claim here depends on the exact numeric value of a table entry, only on
  key membership and on algebraic identities valid for all rationals, so the
  default rule tables below use the intended rational values.
* Python `dict`s used as rule tables are modelled as association lists keyed
  by strings; the `str`-valued enums (`CustomerTier`, `CardType`) hash and
  compare equal to their string values in Python, so dictionary keys that are
  tier or card-type members are modelled by those string values.
* The in-memory product catalog (`InventoryRepository._products`) is modelled
  as a function `String → Option Product`; `upsert` writes at key
  `product.id` exactly as the source does.
* The `Optional` price/quantity fields of `Product` are modelled as
  always-present (`ℚ` / `ℤ`): every claim concerns fully populated products,
  and the source paths exercised here read those fields unconditionally.
* Python exceptions are modelled with `Except`: `ProductNotFound`,
  `InsufficientInventory`, `InvalidDiscountCode` mirror `exceptions.py`, and
  `typeError` models the `TypeError` that `Decimal * dict` raises in
  `CouponDiscountStrategy.apply_discounts` (see `couponApplyDiscounts`).
  Where a Python method mutates state before raising, the embedded function
  returns the state as it stood at the raise point alongside the error.
-/

/-- `enums.py`: customer loyalty tier (a `str` enum in the source). -/
inductive CustomerTier where
  | PREMIUM
  | REGULAR
  | BUDGET
deriving DecidableEq, Repr

/-- The string value of a `CustomerTier` member (it is a `str` enum). -/
def CustomerTier.str : CustomerTier → String
  | .PREMIUM => "PREMIUM"
  | .REGULAR => "REGULAR"
  | .BUDGET => "BUDGET"

/-- `enums.py`: brand tier. -/
inductive BrandTier where
  | PREMIUM
  | REGULAR
  | BUDGET
deriving DecidableEq, Repr

/-- `enums.py`: card type (a `str` enum in the source). -/
inductive CardType where
  | CREDIT
  | DEBIT
deriving DecidableEq, Repr

/-- The string value of a `CardType` member. -/
def CardType.str : CardType → String
  | .CREDIT => "CREDIT"
  | .DEBIT => "DEBIT"

/-- `enums.py`: payment method. -/
inductive PaymentMethod where
  | CARD
  | UPI
deriving DecidableEq, Repr

/-- `models.py`: `Product`. Price fields (`Optional[Decimal]` in the source)
are modelled as always-present rationals; `quantity` (`Optional[int]`) as an
integer, since Python ints are unbounded and the source lets a decrement make
it negative. -/
structure Product where
  id : String
  brand : String
  brand_tier : BrandTier
  category : String
  base_price : ℚ
  current_price : ℚ
  min_price_possible : ℚ
  quantity : ℤ
deriving DecidableEq, Repr

/-- `models.py`: `CartItem`. -/
structure CartItem where
  product : Product
  quantity : ℤ
deriving DecidableEq, Repr

/-- `models.py`: `PaymentInfo`. -/
structure PaymentInfo where
  method : PaymentMethod
  bank_name : Option String
  card_type : Option CardType
deriving DecidableEq, Repr

/-- `models.py`: `CustomerProfile`. -/
structure CustomerProfile where
  customer_tier : CustomerTier
  name : String
  email : String
  id : String
deriving DecidableEq, Repr

/-- A per-product ledger entry list: strategy name paired with the amount that
strategy reported, in application order (`curr_applied_discounts[pid]`). -/
abbrev Ledger := List (String × ℚ)

/-- `models.py`: `DiscountedPrice`. `applied_discounts` maps a product id to
its ledger (insertion-ordered association list, like the Python dict). -/
structure DiscountedPrice where
  original_price : ℚ
  final_price : ℚ
  applied_discounts : List (String × Ledger)
  message : String
deriving DecidableEq, Repr

/-- The exceptions of `exceptions.py`, plus `typeError` for the `TypeError`
Python raises when `CouponDiscountStrategy.apply_discounts` multiplies a
`Decimal` by the tier-keyed inner `dict` it looks up (see the coupon table
shape in `repository.py`). Each carries the identifying data the source
interpolates into the message. -/
inductive Err where
  | productNotFound (id : String)
  | insufficientInventory (id : String)
  | invalidDiscountCode (code : String) (productId : String)
  | typeError
deriving DecidableEq, Repr

/-- Python `key in dict` on a string-keyed dict, for association lists. -/
def alistMem (l : List (String × ℚ)) (k : String) : Bool :=
  (l.find? (fun kv => kv.1 == k)).isSome

/-- Python `dict[key]` on a string-keyed dict, for association lists
(`none` models a `KeyError`, which no embedded path actually reaches). -/
def alistLookup (l : List (String × ℚ)) (k : String) : Option ℚ :=
  (l.find? (fun kv => kv.1 == k)).map (fun kv => kv.2)

/-- `repository.py`: `DiscountRepository`'s rule tables. `brand_discounts`,
`category_discounts` and `card_type_discounts` are outer dicts keyed by
`CustomerTier` with string-keyed inner dicts of percentages. The coupon table
`coupon_discounts` is ALSO keyed by `CustomerTier` at the top level (its inner
dicts map coupon codes to percentages); because `CustomerTier` is a `str`
enum, its top-level keys behave as the strings "PREMIUM"/"REGULAR"/"BUDGET",
which is how `CouponDiscountStrategy` probes it. -/
structure DiscountRepository where
  brand_discounts : CustomerTier → List (String × ℚ)
  category_discounts : CustomerTier → List (String × ℚ)
  card_type_discounts : CustomerTier → List (String × ℚ)
  coupon_discounts : List (String × List (String × ℚ))

/-- The concrete tables constructed in `DiscountRepository.__init__`
(percentages written as the intended rationals; see the module comment on
`Decimal(0.1)`). -/
def defaultRepo : DiscountRepository where
  brand_discounts := fun t =>
    match t with
    | .PREMIUM => [("PUMA", 1/10), ("ADIDAS", 1/10), ("NIKE", 1/10)]
    | .REGULAR => [("PUMA", 1/20), ("ADIDAS", 1/20), ("NIKE", 1/20)]
    | .BUDGET => [("PUMA", 1/20), ("ADIDAS", 1/20), ("NIKE", 1/20)]
  category_discounts := fun t =>
    match t with
    | .PREMIUM => [("SHOES", 1/20), ("T-SHIRTS", 1/20), ("PANTS", 1/20)]
    | .REGULAR => [("SHOES", 1/20), ("T-SHIRTS", 1/20), ("PANTS", 1/20)]
    | .BUDGET => [("SHOES", 1/20), ("T-SHIRTS", 1/20), ("PANTS", 1/20)]
  card_type_discounts := fun t =>
    match t with
    | .PREMIUM => [("CREDIT", 1/20), ("DEBIT", 1/20)]
    | .REGULAR => [("CREDIT", 1/20), ("DEBIT", 1/20)]
    | .BUDGET => [("CREDIT", 1/20), ("DEBIT", 1/20)]
  coupon_discounts :=
    [("PREMIUM", [("PUMA10", 1/10), ("ADIDAS10", 1/10), ("NIKE10", 1/10)]),
     ("REGULAR", [("PUMA", 1/20), ("ADIDAS", 1/20), ("NIKE", 1/20)]),
     ("BUDGET", [("PUMA", 1/20), ("ADIDAS", 1/20), ("NIKE", 1/20)])]

/-- `strategy.py`: `BrandDiscountStrategy.validate_discount_code` — eligible
iff the product's brand has an entry in the brand table row for the
customer's tier. -/
def brandValidateDiscountCode (repo : DiscountRepository)
    (customer : CustomerProfile) (product : Product) : Bool :=
  alistMem (repo.brand_discounts customer.customer_tier) product.brand

/-- `strategy.py`: `CategoryDiscountStrategy.validate_discount_code`. -/
def categoryValidateDiscountCode (repo : DiscountRepository)
    (customer : CustomerProfile) (product : Product) : Bool :=
  alistMem (repo.category_discounts customer.customer_tier) product.category

/-- `strategy.py`: `PaymentDiscountStrategy.validate_discount_code` — needs
payment info present, method `CARD`, and the card type present in the
card-type table row for the customer's tier (`payment_info.card_type` may be
`None`, which is never a dict key). -/
def paymentValidateDiscountCode (repo : DiscountRepository)
    (customer : CustomerProfile) (payment_info : Option PaymentInfo) : Bool :=
  match payment_info with
  | none => false
  | some pi =>
    if pi.method ≠ PaymentMethod.CARD then false
    else
      match pi.card_type with
      | none => false
      | some ct =>
        alistMem (repo.card_type_discounts customer.customer_tier) ct.str

/-- `strategy.py`: `CouponDiscountStrategy.validate_discount_code` — a falsy
(absent or empty) code is ineligible; otherwise the source tests
`code in discount_repo.coupon_discounts`, i.e. membership among the TOP-LEVEL
keys of the coupon table, which in `repository.py` are the customer tiers. -/
def couponValidateDiscountCode (repo : DiscountRepository)
    (code : Option String) : Bool :=
  match code with
  | none => false
  | some c =>
    if c = "" then false
    else ((repo.coupon_discounts.map (fun kv => kv.1)).contains c)

/-- Result of one strategy's `apply_discounts`: the `applied` flag, the
reported discount amount, and the (possibly price-mutated) product. -/
abbrev ApplyResult := Bool × ℚ × Product

/-- `strategy.py`: `BrandDiscountStrategy.apply_discounts`. Validates first;
if eligible, deducts `current_price * percentage`, clamps at
`min_price_possible`, and reports the PRE-clamp nominal amount. -/
def brandApplyDiscounts (repo : DiscountRepository)
    (customer : CustomerProfile) (product : Product) : ApplyResult :=
  if ¬ brandValidateDiscountCode repo customer product then
    (false, 0, product)
  else
    match alistLookup (repo.brand_discounts customer.customer_tier)
        product.brand with
    | some percentage =>
      (true, product.current_price * percentage,
       { product with
           current_price :=
             max (product.current_price - product.current_price * percentage)
               product.min_price_possible })
    | none => (false, 0, product)

/-- `strategy.py`: `CategoryDiscountStrategy.apply_discounts`. -/
def categoryApplyDiscounts (repo : DiscountRepository)
    (customer : CustomerProfile) (product : Product) : ApplyResult :=
  if ¬ categoryValidateDiscountCode repo customer product then
    (false, 0, product)
  else
    match alistLookup (repo.category_discounts customer.customer_tier)
        product.category with
    | some percentage =>
      (true, product.current_price * percentage,
       { product with
           current_price :=
             max (product.current_price - product.current_price * percentage)
               product.min_price_possible })
    | none => (false, 0, product)

/-- `strategy.py`: `PaymentDiscountStrategy.apply_discounts`. When the
eligibility check passed, `payment_info` is present with a card type in the
table, so the lookup succeeds. -/
def paymentApplyDiscounts (repo : DiscountRepository)
    (customer : CustomerProfile) (payment_info : Option PaymentInfo)
    (product : Product) : ApplyResult :=
  if ¬ paymentValidateDiscountCode repo customer payment_info then
    (false, 0, product)
  else
    match alistLookup (repo.card_type_discounts customer.customer_tier)
        (match payment_info with
         | some pi => (match pi.card_type with | some ct => ct.str | none => "")
         | none => "") with
    | some percentage =>
      (true, product.current_price * percentage,
       { product with
           current_price :=
             max (product.current_price - product.current_price * percentage)
               product.min_price_possible })
    | none => (false, 0, product)

/-- `strategy.py`: `CouponDiscountStrategy.apply_discounts`. If the
eligibility check passes, the code is one of the coupon table's TOP-LEVEL
keys (a tier string), so `discount_repo.coupon_discounts[code]` yields the
inner dict and `product.current_price * percentage` raises `TypeError`
before any mutation; if it fails, a no-op. -/
def couponApplyDiscounts (repo : DiscountRepository)
    (code : Option String) (product : Product) : Except Err ApplyResult :=
  if ¬ couponValidateDiscountCode repo code then
    Except.ok (false, 0, product)
  else
    Except.error Err.typeError

/-- The four concrete strategy variants of `strategy.py`. -/
inductive StrategyKind where
  | brand
  | category
  | payment
  | coupon
deriving DecidableEq, Repr

/-- A registered strategy: its constructor `name` and which variant it is
(`DiscountStrategy` subclassing in the source). -/
structure Strategy where
  name : String
  kind : StrategyKind
deriving DecidableEq, Repr

/-- Dispatch of `validate_discount_code` over the variants, with the argument
each variant actually consults. -/
def strategyValidateDiscountCode (k : StrategyKind) (repo : DiscountRepository)
    (customer : CustomerProfile) (payment_info : Option PaymentInfo)
    (code : Option String) (product : Product) : Bool :=
  match k with
  | .brand => brandValidateDiscountCode repo customer product
  | .category => categoryValidateDiscountCode repo customer product
  | .payment => paymentValidateDiscountCode repo customer payment_info
  | .coupon => couponValidateDiscountCode repo code

/-- Dispatch of `apply_discounts` over the variants. Only the coupon variant
can raise. -/
def strategyApplyDiscounts (k : StrategyKind) (repo : DiscountRepository)
    (customer : CustomerProfile) (payment_info : Option PaymentInfo)
    (code : Option String) (product : Product) : Except Err ApplyResult :=
  match k with
  | .brand => Except.ok (brandApplyDiscounts repo customer product)
  | .category => Except.ok (categoryApplyDiscounts repo customer product)
  | .payment => Except.ok (paymentApplyDiscounts repo customer payment_info product)
  | .coupon => couponApplyDiscounts repo code product

/-- `repository.py`: `InventoryRepository._products`, a dict keyed by product
id, modelled as a partial map. -/
def Catalog : Type := String → Option Product

/-- `InventoryRepository.upsert`: store the product under `product.id`. -/
def Catalog.upsert (cat : Catalog) (p : Product) : Catalog :=
  fun i => if i = p.id then some p else cat i

/-- `InventoryRepository.get_product`: raises `ProductNotFound` for an
unknown id. -/
def Catalog.get_product (cat : Catalog) (product_id : String) :
    Except Err Product :=
  match cat product_id with
  | some p => Except.ok p
  | none => Except.error (Err.productNotFound product_id)

/-- The catalog's stored quantity at an id (`none` when the id is absent). -/
def Catalog.qty (cat : Catalog) (i : String) : Option ℤ :=
  (cat i).map (fun p => p.quantity)

/-- Well-formedness of the in-memory dict: every stored product sits under
its own id, as `upsert` guarantees for every catalog built from it. -/
def Catalog.WF (cat : Catalog) : Prop :=
  ∀ i p, cat i = some p → p.id = i

/-- `service.py`: phase 1 of `InventoryService.reserve_items` — read every
referenced product and fail (without mutating) on the first line whose stored
quantity is below the requested quantity. -/
def reservePhase1 (cat : Catalog) : List CartItem → Except Err Unit
  | [] => Except.ok ()
  | ci :: rest =>
    match cat.get_product ci.product.id with
    | Except.error e => Except.error e
    | Except.ok p =>
      if p.quantity < ci.quantity then
        Except.error (Err.insufficientInventory p.id)
      else
        reservePhase1 cat rest

/-- `service.py`: phase 2 of `InventoryService.reserve_items` — decrement and
upsert every line in order. An error result carries the catalog as mutated up
to the raise point. -/
def reservePhase2 (cat : Catalog) : List CartItem → Except (Err × Catalog) Catalog
  | [] => Except.ok cat
  | ci :: rest =>
    match cat.get_product ci.product.id with
    | Except.error e => Except.error (e, cat)
    | Except.ok p =>
      reservePhase2 (cat.upsert { p with quantity := p.quantity - ci.quantity }) rest

/-- `service.py`: `InventoryService.reserve_items`. A raise during phase 1
leaves the catalog exactly as passed in. -/
def reserveItems (cat : Catalog) (cart_items : List CartItem) :
    Except (Err × Catalog) Catalog :=
  match reservePhase1 cat cart_items with
  | Except.error e => Except.error (e, cat)
  | Except.ok _ => reservePhase2 cat cart_items

/-- `service.py`: `InventoryService.release_items` — increment the quantity
back for every line, skipping (not failing on) lines whose product has
disappeared from the catalog. -/
def releaseItems (cat : Catalog) : List CartItem → Catalog
  | [] => cat
  | ci :: rest =>
    match cat ci.product.id with
    | none => releaseItems cat rest
    | some p =>
      releaseItems (cat.upsert { p with quantity := p.quantity + ci.quantity }) rest

/-- `service.py`: `DiscountService._validate_inventory_availability` — the
read-only pre-check; same success condition as `reservePhase1`, re-raising
`ProductNotFound` with its own message. -/
def validateInventoryAvailability (cat : Catalog) :
    List CartItem → Except Err Unit
  | [] => Except.ok ()
  | ci :: rest =>
    match cat.get_product ci.product.id with
    | Except.error _ => Except.error (Err.productNotFound ci.product.id)
    | Except.ok p =>
      if p.quantity < ci.quantity then
        Except.error (Err.insufficientInventory p.id)
      else
        validateInventoryAvailability cat rest

/-- `service.py`: `DiscountService.check_if_quantity_available`, via
`ProductService.check_if_quantity_available` — returns `false` on the first
short line, raising only if a product id is unknown. -/
def checkIfQuantityAvailable (cat : Catalog) : List CartItem → Except Err Bool
  | [] => Except.ok true
  | ci :: rest =>
    match cat.get_product ci.product.id with
    | Except.error e => Except.error e
    | Except.ok p =>
      if ¬ (p.quantity ≥ ci.quantity) then Except.ok false
      else checkIfQuantityAvailable cat rest

/-- The inner strategy loop of `DiscountService.calculate_cart_discounts`:
run the registered strategies in order on the running product, collecting
`(strategy.name, amount)` for each strategy that reported `applied`. -/
def runStrategies (repo : DiscountRepository) (customer : CustomerProfile)
    (payment_info : Option PaymentInfo) (code : Option String) :
    List Strategy → Product → Except Err (Product × Ledger)
  | [], p => Except.ok (p, [])
  | s :: rest, p =>
    match strategyApplyDiscounts s.kind repo customer payment_info code p with
    | Except.error e => Except.error e
    | Except.ok (applied, amount, p') =>
      match runStrategies repo customer payment_info code rest p' with
      | Except.error e => Except.error e
      | Except.ok (pf, ledger) =>
        Except.ok (pf, if applied then (s.name, amount) :: ledger else ledger)

/-- The per-line private copy in `calculate_cart_discounts`:
`copy.deepcopy(cart_item.product)` with `base_price`, `min_price_possible`
and `current_price` overwritten from the authoritative catalog record. -/
def productCopy (ci : CartItem) (db_product : Product) : Product :=
  { ci.product with
      base_price := db_product.base_price
      min_price_possible := db_product.min_price_possible
      current_price := db_product.current_price }

/-- The per-cart-line loop of `DiscountService.calculate_cart_discounts`:
take the private product copy, run the strategy chain on it, and accumulate
`final_price` and the per-product ledger. (With duplicate product ids the
Python dict would merge the two ledgers under one key; the claims below only
exercise duplicate-free ledgers.) -/
def priceItems (cat : Catalog) (strategies : List Strategy)
    (repo : DiscountRepository) (customer : CustomerProfile)
    (payment_info : Option PaymentInfo) (code : Option String) :
    List CartItem → Except Err (ℚ × List (String × Ledger))
  | [] => Except.ok (0, [])
  | ci :: rest =>
    match cat.get_product ci.product.id with
    | Except.error e => Except.error e
    | Except.ok db_product =>
      let product_copy := productCopy ci db_product
      match runStrategies repo customer payment_info code strategies product_copy with
      | Except.error e => Except.error e
      | Except.ok (pf, ledger) =>
        match priceItems cat strategies repo customer payment_info code rest with
        | Except.error e => Except.error e
        | Except.ok (rest_total, rest_ledgers) =>
          Except.ok
            (pf.current_price * (ci.quantity : ℚ) + rest_total,
             if ledger = [] then rest_ledgers
             else (product_copy.id, ledger) :: rest_ledgers)

/-- `service.py`: `DiscountService.calculate_cart_discounts`. Validates
availability, optionally reserves, prices the cart; on a failure inside the
pricing block with `reserve_inventory` set, releases the reservation before
propagating. The result carries the post-call catalog in both outcomes. -/
def calculateCartDiscounts (cat : Catalog) (strategies : List Strategy)
    (repo : DiscountRepository) (customer : CustomerProfile)
    (payment_info : Option PaymentInfo) (code : Option String)
    (cart_items : List CartItem) (reserve_inventory : Bool) :
    Except (Err × Catalog) (DiscountedPrice × Catalog) :=
  match validateInventoryAvailability cat cart_items with
  | Except.error e => Except.error (e, cat)
  | Except.ok _ =>
    match (if reserve_inventory then reserveItems cat cart_items
           else Except.ok cat) with
    | Except.error ec => Except.error ec
    | Except.ok cat2 =>
      let original_price :=
        cart_items.foldl
          (fun acc ci => acc + ci.product.current_price * (ci.quantity : ℚ)) 0
      match priceItems cat2 strategies repo customer payment_info code cart_items with
      | Except.error e =>
        Except.error (e, if reserve_inventory then releaseItems cat2 cart_items else cat2)
      | Except.ok (final_price, ledgers) =>
        Except.ok
          ({ original_price := original_price
             final_price := final_price
             applied_discounts := ledgers
             message := "Final price after applying discounts" }, cat2)

/-- The inner double loop of `DiscountService.validate_discount_code`: for
every cart line and every registered strategy, call the strategy's
`validate_discount_code` (no payment info is passed); raise
`InvalidDiscountCode` naming the offending product on the first failure. -/
def validateCodeLoop (strategies : List Strategy) (repo : DiscountRepository)
    (customer : CustomerProfile) (code : String) :
    List CartItem → Except Err Bool
  | [] => Except.ok true
  | ci :: rest =>
    match (strategies.find? (fun s =>
        ¬ strategyValidateDiscountCode s.kind repo customer none (some code)
            ci.product)) with
    | some _ =>
      Except.error (Err.invalidDiscountCode code ci.product.id)
    | none => validateCodeLoop strategies repo customer code rest

/-- `service.py`: `DiscountService.validate_discount_code` — calls the
stock-availability check, DISCARDS its boolean result, then runs the
all-strategies-must-pass loop. -/
def validateDiscountCode (cat : Catalog) (strategies : List Strategy)
    (repo : DiscountRepository) (customer : CustomerProfile) (code : String)
    (cart_items : List CartItem) : Except Err Bool :=
  match checkIfQuantityAvailable cat cart_items with
  | Except.error e => Except.error e
  | Except.ok _ => validateCodeLoop strategies repo customer code cart_items

/-- Post-call catalog of a `calculateCartDiscounts` result (the catalog the
caller's repository holds after the call, whether it raised or returned). -/
def stateAfter : Except (Err × Catalog) (DiscountedPrice × Catalog) → Catalog
  | Except.error (_, c) => c
  | Except.ok (_, c) => c

/-- Catalog carried by a `reserveItems` result. -/
def reserveState (r : Except (Err × Catalog) Catalog) : Catalog :=
  match r with
  | Except.error (_, c) => c
  | Except.ok c => c

/-- Total requested quantity for a given product id across cart lines. -/
def requestedQty (i : String) : List CartItem → ℤ
  | [] => 0
  | ci :: rest =>
    (if ci.product.id = i then ci.quantity else 0) + requestedQty i rest

/-- The tier-scoped row of the coupon table, the scoping the spec describes
(`coupon_discounts[tier]` in `repository.py`'s canonical shape). -/
def couponTableRow (repo : DiscountRepository) (tier : String) :
    List (String × ℚ) :=
  ((repo.coupon_discounts.find? (fun kv => kv.1 == tier)).map
    (fun kv => kv.2)).getD []

/-- Arguments of one `apply_discounts` call in an arbitrary sequence of
strategy applications. -/
structure StepArgs where
  kind : StrategyKind
  repo : DiscountRepository
  customer : CustomerProfile
  payment_info : Option PaymentInfo
  code : Option String

/-- Run an arbitrary sequence of `apply_discounts` calls on one product. A
call that raises leaves the product as it stood (the exception aborts the
sequence before any mutation by that call). -/
def runSequence (p : Product) : List StepArgs → Product
  | [] => p
  | a :: rest =>
    match strategyApplyDiscounts a.kind a.repo a.customer a.payment_info a.code p with
    | Except.ok (_, _, p') => runSequence p' rest
    | Except.error _ => p

lemma alistMem_of_lookup {l : List (String × ℚ)} {k : String} {q : ℚ}
    (h : alistLookup l k = some q) : alistMem l k = true := by
  unfold alistMem alistLookup at *
  cases hf : l.find? (fun kv => kv.1 == k) <;> simp [hf] at h ⊢

/-- `BrandDiscountStrategy.apply_discounts`, applied case: the new price is
the reported amount subtracted from the running price, then clamped; floor
and identifying fields are untouched, and the amount is the pre-clamp
nominal `current_price * percentage`. -/
lemma brandApply_true {repo : DiscountRepository} {cust : CustomerProfile}
    {p : Product} {amt : ℚ} {p' : Product}
    (h : brandApplyDiscounts repo cust p = (true, amt, p')) :
    p' = { p with current_price := max (p.current_price - amt) p.min_price_possible } ∧
    amt = p.current_price *
      ((alistLookup (repo.brand_discounts cust.customer_tier) p.brand).getD 0) := by
  unfold brandApplyDiscounts at h
  split at h
  · simp at h
  · split at h
    case _ pct hl =>
      simp only [Prod.mk.injEq] at h
      obtain ⟨-, h2, h3⟩ := h
      subst h2
      exact ⟨h3.symm, by simp [hl]⟩
    case _ => simp at h

/-- `BrandDiscountStrategy.apply_discounts`, not-applied case: a no-op. -/
lemma brandApply_false {repo : DiscountRepository} {cust : CustomerProfile}
    {p : Product} {amt : ℚ} {p' : Product}
    (h : brandApplyDiscounts repo cust p = (false, amt, p')) :
    p' = p ∧ amt = 0 := by
  unfold brandApplyDiscounts at h
  split at h
  · simp only [Prod.mk.injEq] at h
    exact ⟨h.2.2.symm, h.2.1.symm⟩
  · split at h
    case _ pct hl => simp at h
    case _ =>
      simp only [Prod.mk.injEq] at h
      exact ⟨h.2.2.symm, h.2.1.symm⟩

/-- `CategoryDiscountStrategy.apply_discounts`, applied case. -/
lemma categoryApply_true {repo : DiscountRepository} {cust : CustomerProfile}
    {p : Product} {amt : ℚ} {p' : Product}
    (h : categoryApplyDiscounts repo cust p = (true, amt, p')) :
    p' = { p with current_price := max (p.current_price - amt) p.min_price_possible } ∧
    amt = p.current_price *
      ((alistLookup (repo.category_discounts cust.customer_tier) p.category).getD 0) := by
  unfold categoryApplyDiscounts at h
  split at h
  · simp at h
  · split at h
    case _ pct hl =>
      simp only [Prod.mk.injEq] at h
      obtain ⟨-, h2, h3⟩ := h
      subst h2
      exact ⟨h3.symm, by simp [hl]⟩
    case _ => simp at h

/-- `CategoryDiscountStrategy.apply_discounts`, not-applied case. -/
lemma categoryApply_false {repo : DiscountRepository} {cust : CustomerProfile}
    {p : Product} {amt : ℚ} {p' : Product}
    (h : categoryApplyDiscounts repo cust p = (false, amt, p')) :
    p' = p ∧ amt = 0 := by
  unfold categoryApplyDiscounts at h
  split at h
  · simp only [Prod.mk.injEq] at h
    exact ⟨h.2.2.symm, h.2.1.symm⟩
  · split at h
    case _ pct hl => simp at h
    case _ =>
      simp only [Prod.mk.injEq] at h
      exact ⟨h.2.2.symm, h.2.1.symm⟩

/-- `PaymentDiscountStrategy.apply_discounts`, applied case. -/
lemma paymentApply_true {repo : DiscountRepository} {cust : CustomerProfile}
    {pi? : Option PaymentInfo} {p : Product} {amt : ℚ} {p' : Product}
    (h : paymentApplyDiscounts repo cust pi? p = (true, amt, p')) :
    p' = { p with current_price := max (p.current_price - amt) p.min_price_possible } := by
  unfold paymentApplyDiscounts at h
  split at h
  · simp at h
  · split at h
    case _ pct hl =>
      simp only [Prod.mk.injEq] at h
      obtain ⟨-, h2, h3⟩ := h
      subst h2
      exact h3.symm
    case _ => simp at h

/-- `PaymentDiscountStrategy.apply_discounts`, not-applied case. -/
lemma paymentApply_false {repo : DiscountRepository} {cust : CustomerProfile}
    {pi? : Option PaymentInfo} {p : Product} {amt : ℚ} {p' : Product}
    (h : paymentApplyDiscounts repo cust pi? p = (false, amt, p')) :
    p' = p ∧ amt = 0 := by
  unfold paymentApplyDiscounts at h
  split at h
  · simp only [Prod.mk.injEq] at h
    exact ⟨h.2.2.symm, h.2.1.symm⟩
  · split at h
    case _ pct hl => simp at h
    case _ =>
      simp only [Prod.mk.injEq] at h
      exact ⟨h.2.2.symm, h.2.1.symm⟩

/-- Any successful `apply_discounts` either leaves the product unchanged or
replaces its running price by a floor-clamped value: floor unchanged, new
price at least the floor. -/
lemma strategyApply_floor {k : StrategyKind} {repo : DiscountRepository}
    {cust : CustomerProfile} {pi? : Option PaymentInfo} {code : Option String}
    {p : Product} {a : Bool} {amt : ℚ} {p' : Product}
    (h : strategyApplyDiscounts k repo cust pi? code p = Except.ok (a, amt, p')) :
    p' = p ∨ (p'.min_price_possible = p.min_price_possible ∧
      p.min_price_possible ≤ p'.current_price) := by
  cases k with
  | brand =>
    simp only [strategyApplyDiscounts, Except.ok.injEq] at h
    cases a with
    | false => exact Or.inl (brandApply_false h).1
    | true =>
      refine Or.inr ?_
      obtain ⟨hp, -⟩ := brandApply_true h
      subst hp
      exact ⟨rfl, le_max_right _ _⟩
  | category =>
    simp only [strategyApplyDiscounts, Except.ok.injEq] at h
    cases a with
    | false => exact Or.inl (categoryApply_false h).1
    | true =>
      refine Or.inr ?_
      obtain ⟨hp, -⟩ := categoryApply_true h
      subst hp
      exact ⟨rfl, le_max_right _ _⟩
  | payment =>
    simp only [strategyApplyDiscounts, Except.ok.injEq] at h
    cases a with
    | false => exact Or.inl (paymentApply_false h).1
    | true =>
      refine Or.inr ?_
      obtain hp := paymentApply_true h
      subst hp
      exact ⟨rfl, le_max_right _ _⟩
  | coupon =>
    simp only [strategyApplyDiscounts] at h
    unfold couponApplyDiscounts at h
    split at h
    · simp only [Except.ok.injEq, Prod.mk.injEq] at h
      exact Or.inl h.2.2.symm
    · simp at h

/-- Any `apply_discounts` that reports `applied = true` sets the new running
price to `max (runningPrice - reportedAmount) floor`: the reported amount is
the nominal pre-clamp deduction, applied before the clamp. -/
lemma strategyApply_true_clamp {k : StrategyKind} {repo : DiscountRepository}
    {cust : CustomerProfile} {pi? : Option PaymentInfo} {code : Option String}
    {p : Product} {amt : ℚ} {p' : Product}
    (h : strategyApplyDiscounts k repo cust pi? code p = Except.ok (true, amt, p')) :
    p'.current_price = max (p.current_price - amt) p.min_price_possible := by
  cases k with
  | brand =>
    simp only [strategyApplyDiscounts, Except.ok.injEq] at h
    obtain ⟨hp, -⟩ := brandApply_true h
    subst hp
    rfl
  | category =>
    simp only [strategyApplyDiscounts, Except.ok.injEq] at h
    obtain ⟨hp, -⟩ := categoryApply_true h
    subst hp
    rfl
  | payment =>
    simp only [strategyApplyDiscounts, Except.ok.injEq] at h
    obtain hp := paymentApply_true h
    subst hp
    rfl
  | coupon =>
    simp only [strategyApplyDiscounts] at h
    unfold couponApplyDiscounts at h
    split at h
    · simp at h
    · simp at h

/-- The customer constructed in `main.py`'s demo (`CustomerProfile` with the
PREMIUM tier); any premium customer works the same for the claims below. -/
def premiumCustomer : CustomerProfile :=
  { customer_tier := CustomerTier.PREMIUM
    name := "John Doe"
    email := "john@example.com"
    id := "123" }

/-- A premium-brand product whose floor (95) truncates a 10% deduction from
its running price (100). -/
def clampProduct : Product :=
  { id := "1", brand := "PUMA", brand_tier := BrandTier.PREMIUM
    category := "SHOES", base_price := 100, current_price := 100
    min_price_possible := 95, quantity := 10 }

/-- The product `clampProduct` after the brand strategy applies: price
clamped to the floor 95, while the strategy reported 10. -/
def clampProductAfter : Product :=
  { clampProduct with current_price := 95 }

/-- C2 (counterexample): at running price 100, floor 95 and brand percentage
10%, `BrandDiscountStrategy.apply_discounts` reports amount 10 and clamps the
price to 95, so the reported amount is NOT `preClampPrice - postClampPrice`
(which is 5): the claim's equality fails whenever the floor truncates. -/
theorem C2_amount_counterexample :
    strategyApplyDiscounts StrategyKind.brand defaultRepo premiumCustomer
      none none clampProduct = Except.ok (true, 10, clampProductAfter) ∧
    clampProductAfter.current_price = 95 ∧
    ¬ ((10 : ℚ) = clampProduct.current_price - clampProductAfter.current_price) := by
  refine ⟨?_, ?_, ?_⟩
  · norm_num [strategyApplyDiscounts, brandApplyDiscounts,
      brandValidateDiscountCode, alistMem, alistLookup, defaultRepo,
      premiumCustomer, clampProduct, clampProductAfter, List.find?,
      Product.mk.injEq]
  · norm_num [clampProductAfter, clampProduct]
  · norm_num [clampProduct, clampProductAfter]

/-- C2 (amended): every variant that reports `applied = true` reports the
nominal pre-clamp deduction: the new price is
`max (runningPrice - reportedAmount) floor`, so the reported amount exceeds
the actual monetary impact `preClampPrice - postClampPrice` exactly when the
floor truncates the deduction (and equals it otherwise). -/
theorem C2_amount_reported_is_preclamp_nominal (k : StrategyKind)
    (repo : DiscountRepository) (cust : CustomerProfile)
    (pi? : Option PaymentInfo) (code : Option String)
    (p : Product) (amt : ℚ) (p' : Product)
    (h : strategyApplyDiscounts k repo cust pi? code p = Except.ok (true, amt, p')) :
    p'.current_price = max (p.current_price - amt) p.min_price_possible :=
  strategyApply_true_clamp h

/-- C2 witness: the amended statement evaluated at the truncating input. -/
theorem C2_amount_reported_witness :
    strategyApplyDiscounts StrategyKind.brand defaultRepo premiumCustomer
      none none clampProduct = Except.ok (true, 10, clampProductAfter) ∧
    clampProductAfter.current_price
      = max (clampProduct.current_price - 10) clampProduct.min_price_possible := by
  have h : strategyApplyDiscounts StrategyKind.brand defaultRepo
      premiumCustomer none none clampProduct
      = Except.ok (true, 10, clampProductAfter) := by
    norm_num [strategyApplyDiscounts, brandApplyDiscounts,
      brandValidateDiscountCode, alistMem, alistLookup, defaultRepo,
      premiumCustomer, clampProduct, clampProductAfter, List.find?,
      Product.mk.injEq]
  exact ⟨h, C2_amount_reported_is_preclamp_nominal StrategyKind.brand
    defaultRepo premiumCustomer none none clampProduct 10 clampProductAfter h⟩

/-- C3: for every product whose running price respects its floor and every
sequence of strategy `apply_discounts` calls (any variants, repositories,
customers, payment contexts and codes, hence any eligibility outcomes), the
price after the sequence still respects the (unchanged) floor. -/
theorem C3_floor_invariant (p : Product) (steps : List StepArgs)
    (h : p.min_price_possible ≤ p.current_price) :
    (runSequence p steps).min_price_possible = p.min_price_possible ∧
    p.min_price_possible ≤ (runSequence p steps).current_price := by
  induction steps generalizing p with
  | nil => exact ⟨rfl, h⟩
  | cons a rest ih =>
    unfold runSequence
    cases happ : strategyApplyDiscounts a.kind a.repo a.customer
        a.payment_info a.code p with
    | error e => exact ⟨rfl, h⟩
    | ok r =>
      obtain ⟨a', amt, p'⟩ := r
      rcases strategyApply_floor happ with hp | ⟨hmin, hcur⟩
      · subst hp
        exact ih _ h
      · obtain ⟨h1, h2⟩ := ih p' (hmin ▸ hcur)
        exact ⟨by rw [h1, hmin], by rw [← hmin]; exact h2⟩

/-- A demo-style product for exercising the floor invariant concretely. -/
def c3Product : Product :=
  { id := "3", brand := "NIKE", brand_tier := BrandTier.PREMIUM
    category := "SHOES", base_price := 1000, current_price := 1000
    min_price_possible := 850, quantity := 10 }

/-- A concrete mixed sequence of apply calls: category, brand, payment (with
a debit card), then coupon. -/
def c3Steps : List StepArgs :=
  [ { kind := StrategyKind.category, repo := defaultRepo
      customer := premiumCustomer, payment_info := none, code := none },
    { kind := StrategyKind.brand, repo := defaultRepo
      customer := premiumCustomer, payment_info := none, code := none },
    { kind := StrategyKind.payment, repo := defaultRepo
      customer := premiumCustomer
      payment_info := some { method := PaymentMethod.CARD
                             bank_name := some "HDFC"
                             card_type := some CardType.DEBIT }
      code := none },
    { kind := StrategyKind.coupon, repo := defaultRepo
      customer := premiumCustomer, payment_info := none
      code := some "NIKE10" } ]

/-- C3 witness: the floor invariant evaluated on the concrete sequence. -/
theorem C3_floor_invariant_witness :
    c3Product.min_price_possible ≤ c3Product.current_price ∧
    ((runSequence c3Product c3Steps).min_price_possible
        = c3Product.min_price_possible ∧
      c3Product.min_price_possible
        ≤ (runSequence c3Product c3Steps).current_price) :=
  ⟨by norm_num [c3Product],
   C3_floor_invariant c3Product c3Steps (by norm_num [c3Product])⟩

/-- Clamp algebra: scaling a clamped value by a factor in `[0,1]` and
re-clamping is the same as scaling the unclamped value and clamping once,
when the floor is nonnegative. -/
lemma max_mul_max (a f t : ℚ) (ht0 : 0 ≤ t) (ht1 : t ≤ 1) (hf : 0 ≤ f) :
    max (max a f * t) f = max (a * t) f := by
  rcases le_or_lt f a with hfa | haf
  · rw [max_eq_left hfa]
  · have h1 : f * t ≤ f := by nlinarith
    have h2 : a * t ≤ f := by
      rcases le_or_lt 0 a with ha | ha
      · nlinarith [mul_nonneg ha (sub_nonneg.mpr ht1)]
      · nlinarith [mul_nonpos_of_nonpos_of_nonneg (le_of_lt ha) ht0]
    rw [max_eq_right (le_of_lt haf), max_eq_right h1, max_eq_right h2]

/-- `CategoryDiscountStrategy.apply_discounts` computed on an eligible
product: explicit applied result. -/
lemma categoryApply_eq {repo : DiscountRepository} {cust : CustomerProfile}
    {p : Product} {p1 : ℚ}
    (hcat : alistLookup (repo.category_discounts cust.customer_tier)
        p.category = some p1) :
    categoryApplyDiscounts repo cust p =
      (true, p.current_price * p1,
       { p with current_price := max (p.current_price - p.current_price * p1) p.min_price_possible }) := by
  have hval : categoryValidateDiscountCode repo cust p = true := by
    unfold categoryValidateDiscountCode
    exact alistMem_of_lookup hcat
  unfold categoryApplyDiscounts
  rw [hcat]
  simp [hval]

/-- `BrandDiscountStrategy.apply_discounts` computed on an eligible
product: explicit applied result. -/
lemma brandApply_eq {repo : DiscountRepository} {cust : CustomerProfile}
    {p : Product} {p2 : ℚ}
    (hbrand : alistLookup (repo.brand_discounts cust.customer_tier)
        p.brand = some p2) :
    brandApplyDiscounts repo cust p =
      (true, p.current_price * p2,
       { p with current_price := max (p.current_price - p.current_price * p2) p.min_price_possible }) := by
  have hval : brandValidateDiscountCode repo cust p = true := by
    unfold brandValidateDiscountCode
    exact alistMem_of_lookup hbrand
  unfold brandApplyDiscounts
  rw [hbrand]
  simp [hval]

/-- C7: Category-then-Brand on an eligible product with percentages `p1, p2`
in `[0,1]` and nonnegative floor yields the multiplicatively compounded
price `max (B*(1-p1)*(1-p2)) floor`, even though each strategy clamps at the
floor individually after its own deduction. -/
theorem C7_compounding_multiplicative (repo : DiscountRepository)
    (cust : CustomerProfile) (p : Product) (p1 p2 : ℚ)
    (hcat : alistLookup (repo.category_discounts cust.customer_tier)
        p.category = some p1)
    (hbrand : alistLookup (repo.brand_discounts cust.customer_tier)
        p.brand = some p2)
    (hp1l : 0 ≤ p1) (hp1u : p1 ≤ 1) (hp2l : 0 ≤ p2) (hp2u : p2 ≤ 1)
    (hf : 0 ≤ p.min_price_possible) :
    ((brandApplyDiscounts repo cust
        (categoryApplyDiscounts repo cust p).2.2).2.2).current_price
      = max (p.current_price * (1 - p1) * (1 - p2)) p.min_price_possible := by
  rw [categoryApply_eq hcat]
  rw [brandApply_eq (p := { p with current_price := max (p.current_price - p.current_price * p1) p.min_price_possible }) hbrand]
  show max (max (p.current_price - p.current_price * p1) p.min_price_possible
      - max (p.current_price - p.current_price * p1) p.min_price_possible * p2)
      p.min_price_possible = _
  have e1 : p.current_price - p.current_price * p1
      = p.current_price * (1 - p1) := by ring
  rw [e1]
  have e2 : max (p.current_price * (1 - p1)) p.min_price_possible
      - max (p.current_price * (1 - p1)) p.min_price_possible * p2
      = max (p.current_price * (1 - p1)) p.min_price_possible * (1 - p2) := by
    ring
  rw [e2]
  exact max_mul_max (p.current_price * (1 - p1)) p.min_price_possible (1 - p2)
    (by linarith) (by linarith) hf

/-- C7 witness: the end-to-end scenario of §8 — price 1000, category 5%, then
brand 10%, floor 800: `1000 * 0.95 * 0.90 = 855`, floor not hit. -/
theorem C7_compounding_witness :
    alistLookup (defaultRepo.category_discounts premiumCustomer.customer_tier)
        c3Product.category = some (1/20) ∧
    alistLookup (defaultRepo.brand_discounts premiumCustomer.customer_tier)
        c3Product.brand = some (1/10) ∧
    ((brandApplyDiscounts defaultRepo premiumCustomer
        (categoryApplyDiscounts defaultRepo premiumCustomer c3Product).2.2).2.2).current_price
      = max (c3Product.current_price * (1 - 1/20) * (1 - 1/10))
          c3Product.min_price_possible := by
  have hcat : alistLookup
      (defaultRepo.category_discounts premiumCustomer.customer_tier)
      c3Product.category = some (1/20) := by
    simp [alistLookup, defaultRepo, premiumCustomer, c3Product, List.find?]
  have hbrand : alistLookup
      (defaultRepo.brand_discounts premiumCustomer.customer_tier)
      c3Product.brand = some (1/10) := by
    simp [alistLookup, defaultRepo, premiumCustomer, c3Product, List.find?]
  exact ⟨hcat, hbrand,
    C7_compounding_multiplicative defaultRepo premiumCustomer c3Product
      (1/20) (1/10) hcat hbrand (by norm_num) (by norm_num) (by norm_num)
      (by norm_num) (by norm_num [c3Product])⟩

/-- Two floor-clamped percentage deductions commute: either order yields
`max (c*(1-t)*(1-s)) f` when both percentages lie in `[0,1]` and the floor is
nonnegative. -/
lemma clamp_two_comm (c f t s : ℚ) (ht0 : 0 ≤ t) (ht1 : t ≤ 1)
    (hs0 : 0 ≤ s) (hs1 : s ≤ 1) (hf : 0 ≤ f) :
    max (max (c - c * t) f - max (c - c * t) f * s) f
      = max (max (c - c * s) f - max (c - c * s) f * t) f := by
  have e1 : c - c * t = c * (1 - t) := by ring
  have e2 : c - c * s = c * (1 - s) := by ring
  have e3 : max (c * (1 - t)) f - max (c * (1 - t)) f * s
      = max (c * (1 - t)) f * (1 - s) := by ring
  have e4 : max (c * (1 - s)) f - max (c * (1 - s)) f * t
      = max (c * (1 - s)) f * (1 - t) := by ring
  rw [e1, e2, e3, e4]
  rw [max_mul_max (c * (1 - t)) f (1 - s) (by linarith) (by linarith) hf]
  rw [max_mul_max (c * (1 - s)) f (1 - t) (by linarith) (by linarith) hf]
  ring_nf


/-- The strategy chain `[Category, Brand]` computed on a doubly-eligible
product: both apply; each reports its nominal amount against the running
price it saw; each clamps individually. -/
lemma runStrategies_cat_brand (repo : DiscountRepository)
    (cust : CustomerProfile) (n1 n2 : String) (p : Product) (p1 p2 : ℚ)
    (hcat : alistLookup (repo.category_discounts cust.customer_tier)
        p.category = some p1)
    (hbrand : alistLookup (repo.brand_discounts cust.customer_tier)
        p.brand = some p2) :
    runStrategies repo cust none none
      [{ name := n1, kind := StrategyKind.category },
       { name := n2, kind := StrategyKind.brand }] p
      = Except.ok
        ({ p with current_price := max (max (p.current_price - p.current_price * p1) p.min_price_possible - max (p.current_price - p.current_price * p1) p.min_price_possible * p2) p.min_price_possible },
         [(n1, p.current_price * p1),
          (n2, max (p.current_price - p.current_price * p1) p.min_price_possible * p2)]) := by
  have hb2 : alistLookup (repo.brand_discounts cust.customer_tier)
      (({ p with current_price := max (p.current_price - p.current_price * p1) p.min_price_possible } : Product)).brand = some p2 := hbrand
  simp only [runStrategies, strategyApplyDiscounts, categoryApply_eq hcat,
    brandApply_eq hb2]
  simp

/-- The strategy chain `[Brand, Category]` computed on a doubly-eligible
product. -/
lemma runStrategies_brand_cat (repo : DiscountRepository)
    (cust : CustomerProfile) (n1 n2 : String) (p : Product) (p1 p2 : ℚ)
    (hcat : alistLookup (repo.category_discounts cust.customer_tier)
        p.category = some p1)
    (hbrand : alistLookup (repo.brand_discounts cust.customer_tier)
        p.brand = some p2) :
    runStrategies repo cust none none
      [{ name := n2, kind := StrategyKind.brand },
       { name := n1, kind := StrategyKind.category }] p
      = Except.ok
        ({ p with current_price := max (max (p.current_price - p.current_price * p2) p.min_price_possible - max (p.current_price - p.current_price * p2) p.min_price_possible * p1) p.min_price_possible },
         [(n2, p.current_price * p2),
          (n1, max (p.current_price - p.current_price * p2) p.min_price_possible * p1)]) := by
  have hc2 : alistLookup (repo.category_discounts cust.customer_tier)
      (({ p with current_price := max (p.current_price - p.current_price * p2) p.min_price_possible } : Product)).category = some p1 := hcat
  simp only [runStrategies, strategyApplyDiscounts, brandApply_eq hbrand,
    categoryApply_eq hc2]
  simp

/-- `calculate_cart_discounts` on a one-line cart without reservation, given
the strategy chain's outcome on the private copy: succeeds with
`final_price = finalRunningPrice * quantity`. -/
lemma calc_single_final (cat : Catalog) (strategies : List Strategy)
    (repo : DiscountRepository) (cust : CustomerProfile)
    (pi? : Option PaymentInfo) (code : Option String) (ci : CartItem)
    (db : Product) (pf : Product) (led : Ledger)
    (hdb : cat ci.product.id = some db)
    (hq : ¬ db.quantity < ci.quantity)
    (hrun : runStrategies repo cust pi? code strategies (productCopy ci db)
      = Except.ok (pf, led)) :
    (calculateCartDiscounts cat strategies repo cust pi? code [ci] false).map
        (fun r => r.1.final_price)
      = Except.ok (pf.current_price * (ci.quantity : ℚ) + 0) := by
  simp only [calculateCartDiscounts, validateInventoryAvailability,
    Catalog.get_product, hdb, hq, ite_false, if_neg, not_false_iff,
    priceItems, hrun, Except.map, Bool.false_eq_true]

/-- C8 (amended): for a one-line cart and the Category and Brand strategies
both eligible with percentages in `[0,1]` and a nonnegative floor, running
`calculate_cart_discounts` with the two opposite strategy orders yields the
SAME `final_price` — the individually-clamped percentage steps commute, even
when one percentage alone would cross the floor and the other would not.
Only the per-strategy ledger amounts depend on the order (see the
counterexample theorem for a concrete instance of that difference). -/
theorem C8_final_price_order_invariant (cat : Catalog)
    (repo : DiscountRepository) (cust : CustomerProfile) (ci : CartItem)
    (db : Product) (n1 n2 : String) (p1 p2 : ℚ)
    (hdb : cat ci.product.id = some db)
    (hq : ¬ db.quantity < ci.quantity)
    (hcat : alistLookup (repo.category_discounts cust.customer_tier)
        ci.product.category = some p1)
    (hbrand : alistLookup (repo.brand_discounts cust.customer_tier)
        ci.product.brand = some p2)
    (hp1l : 0 ≤ p1) (hp1u : p1 ≤ 1) (hp2l : 0 ≤ p2) (hp2u : p2 ≤ 1)
    (hf : 0 ≤ db.min_price_possible) :
    (calculateCartDiscounts cat
        [{ name := n1, kind := StrategyKind.category },
         { name := n2, kind := StrategyKind.brand }]
        repo cust none none [ci] false).map (fun r => r.1.final_price)
      = (calculateCartDiscounts cat
          [{ name := n2, kind := StrategyKind.brand },
           { name := n1, kind := StrategyKind.category }]
          repo cust none none [ci] false).map (fun r => r.1.final_price) := by
  have hcatC : alistLookup (repo.category_discounts cust.customer_tier)
      (productCopy ci db).category = some p1 := hcat
  have hbrandC : alistLookup (repo.brand_discounts cust.customer_tier)
      (productCopy ci db).brand = some p2 := hbrand
  rw [calc_single_final cat _ repo cust none none ci db _ _ hdb hq
      (runStrategies_cat_brand repo cust n1 n2 (productCopy ci db) p1 p2
        hcatC hbrandC)]
  rw [calc_single_final cat _ repo cust none none ci db _ _ hdb hq
      (runStrategies_brand_cat repo cust n1 n2 (productCopy ci db) p1 p2
        hcatC hbrandC)]
  have hkey : max (max ((productCopy ci db).current_price
        - (productCopy ci db).current_price * p1)
        (productCopy ci db).min_price_possible
      - max ((productCopy ci db).current_price
          - (productCopy ci db).current_price * p1)
          (productCopy ci db).min_price_possible * p2)
      (productCopy ci db).min_price_possible
    = max (max ((productCopy ci db).current_price
        - (productCopy ci db).current_price * p2)
        (productCopy ci db).min_price_possible
      - max ((productCopy ci db).current_price
          - (productCopy ci db).current_price * p2)
          (productCopy ci db).min_price_possible * p1)
      (productCopy ci db).min_price_possible := by
    have hfc : 0 ≤ (productCopy ci db).min_price_possible := hf
    exact clamp_two_comm (productCopy ci db).current_price
      (productCopy ci db).min_price_possible p1 p2 hp1l hp1u hp2l hp2u hfc
  simp only [hkey]

/-- `calculate_cart_discounts` on a one-line cart without reservation: the
full successful result, given the strategy chain's outcome on the private
copy. -/
lemma calc_single_result (cat : Catalog) (strategies : List Strategy)
    (repo : DiscountRepository) (cust : CustomerProfile)
    (pi? : Option PaymentInfo) (code : Option String) (ci : CartItem)
    (db : Product) (pf : Product) (led : Ledger)
    (hdb : cat ci.product.id = some db)
    (hq : ¬ db.quantity < ci.quantity)
    (hrun : runStrategies repo cust pi? code strategies (productCopy ci db)
      = Except.ok (pf, led)) :
    calculateCartDiscounts cat strategies repo cust pi? code [ci] false
      = Except.ok
        ({ original_price := 0 + ci.product.current_price * (ci.quantity : ℚ)
           final_price := pf.current_price * (ci.quantity : ℚ) + 0
           applied_discounts :=
             if led = [] then [] else [((productCopy ci db).id, led)]
           message := "Final price after applying discounts" }, cat) := by
  simp only [calculateCartDiscounts, validateInventoryAvailability,
    Catalog.get_product, hdb, hq, ite_false, if_neg, not_false_iff,
    priceItems, hrun, List.foldl, Bool.false_eq_true]

/-- The rule table of the order-sensitivity scenario: brand 20% (clamps alone
from 100 to the floor 90), category 5% (alone lands at 95, above the
floor). -/
def c8Repo : DiscountRepository where
  brand_discounts := fun _ => [("PUMA", 1/5)]
  category_discounts := fun _ => [("SHOES", 1/20)]
  card_type_discounts := fun _ => []
  coupon_discounts := []

/-- Product for the order-sensitivity scenario: price 100, floor 90. -/
def c8Product : Product :=
  { id := "1", brand := "PUMA", brand_tier := BrandTier.PREMIUM
    category := "SHOES", base_price := 100, current_price := 100
    min_price_possible := 90, quantity := 10 }

/-- Catalog holding exactly the order-sensitivity product. -/
def c8Cat : Catalog := Catalog.upsert (fun _ => none) c8Product

/-- One cart line of one unit of the order-sensitivity product. -/
def c8Item : CartItem := { product := c8Product, quantity := 1 }

lemma c8_hdb : c8Cat c8Item.product.id = some c8Product := by
  simp [c8Cat, Catalog.upsert, c8Item, c8Product]

lemma c8_hq : ¬ c8Product.quantity < c8Item.quantity := by
  simp [c8Item, c8Product]

lemma c8_hcat : alistLookup
    (c8Repo.category_discounts premiumCustomer.customer_tier)
    (productCopy c8Item c8Product).category = some (1/20) := by
  simp [alistLookup, c8Repo, productCopy, c8Item, c8Product, List.find?]

lemma c8_hbrand : alistLookup
    (c8Repo.brand_discounts premiumCustomer.customer_tier)
    (productCopy c8Item c8Product).brand = some (1/5) := by
  simp [alistLookup, c8Repo, productCopy, c8Item, c8Product, List.find?]

/-- C8 (counterexample): in the very scenario the claim designates — brand
percentage 1/5 alone would drive the price 100 below the floor 90, category
percentage 1/20 alone would not — the two strategy orders produce the SAME
`final_price` (both 90) from `calculate_cart_discounts`, so no order
sensitivity of the final price occurs there; only the ledger amounts differ
between the orders. -/
theorem C8_order_sensitivity_counterexample :
    (100 * (1 - 1/5 : ℚ) < 90 ∧ ¬ (100 * (1 - 1/20 : ℚ) < 90)) ∧
    (calculateCartDiscounts c8Cat
        [{ name := "BrandDiscount", kind := StrategyKind.brand },
         { name := "CategoryDiscount", kind := StrategyKind.category }]
        c8Repo premiumCustomer none none [c8Item] false).map
        (fun r => r.1.final_price)
      = (calculateCartDiscounts c8Cat
          [{ name := "CategoryDiscount", kind := StrategyKind.category },
           { name := "BrandDiscount", kind := StrategyKind.brand }]
          c8Repo premiumCustomer none none [c8Item] false).map
          (fun r => r.1.final_price) ∧
    (calculateCartDiscounts c8Cat
        [{ name := "BrandDiscount", kind := StrategyKind.brand },
         { name := "CategoryDiscount", kind := StrategyKind.category }]
        c8Repo premiumCustomer none none [c8Item] false).map
        (fun r => r.1.applied_discounts)
      ≠ (calculateCartDiscounts c8Cat
          [{ name := "CategoryDiscount", kind := StrategyKind.category },
           { name := "BrandDiscount", kind := StrategyKind.brand }]
          c8Repo premiumCustomer none none [c8Item] false).map
          (fun r => r.1.applied_discounts) := by
  have r1 := runStrategies_brand_cat c8Repo premiumCustomer "CategoryDiscount"
    "BrandDiscount" (productCopy c8Item c8Product) (1/20) (1/5) c8_hcat c8_hbrand
  have r2 := runStrategies_cat_brand c8Repo premiumCustomer "CategoryDiscount"
    "BrandDiscount" (productCopy c8Item c8Product) (1/20) (1/5) c8_hcat c8_hbrand
  have e1 := calc_single_result c8Cat _ c8Repo premiumCustomer none none
    c8Item c8Product _ _ c8_hdb c8_hq r1
  have e2 := calc_single_result c8Cat _ c8Repo premiumCustomer none none
    c8Item c8Product _ _ c8_hdb c8_hq r2
  refine ⟨⟨by norm_num, by norm_num⟩, ?_, ?_⟩
  · rw [e1, e2]
    simp only [Except.map, Except.ok.injEq]
    norm_num [productCopy, c8Item, c8Product, max_def]
  · rw [e1, e2]
    simp only [Except.map, ne_eq, Except.ok.injEq]
    norm_num [productCopy, c8Item, c8Product, max_def]
    simp

/-- C8 witness: the order-invariance of `final_price` evaluated at the
claim's own clamping scenario. -/
theorem C8_order_invariant_witness :
    c8Cat c8Item.product.id = some c8Product ∧
    (calculateCartDiscounts c8Cat
        [{ name := "CategoryDiscount", kind := StrategyKind.category },
         { name := "BrandDiscount", kind := StrategyKind.brand }]
        c8Repo premiumCustomer none none [c8Item] false).map
        (fun r => r.1.final_price)
      = (calculateCartDiscounts c8Cat
          [{ name := "BrandDiscount", kind := StrategyKind.brand },
           { name := "CategoryDiscount", kind := StrategyKind.category }]
          c8Repo premiumCustomer none none [c8Item] false).map
          (fun r => r.1.final_price) :=
  ⟨c8_hdb,
   C8_final_price_order_invariant c8Cat c8Repo premiumCustomer c8Item
     c8Product "CategoryDiscount" "BrandDiscount" (1/20) (1/5) c8_hdb c8_hq
     c8_hcat c8_hbrand (by norm_num) (by norm_num) (by norm_num) (by norm_num)
     (by norm_num [c8Product])⟩

lemma get_product_ok {cat : Catalog} {x : String} {p : Product} :
    cat.get_product x = Except.ok p ↔ cat x = some p := by
  unfold Catalog.get_product
  cases h : cat x <;> simp

lemma wf_empty : Catalog.WF (fun _ => none) := by
  intro i p h
  cases h

lemma wf_upsert {cat : Catalog} (p : Product) (h : Catalog.WF cat) :
    Catalog.WF (cat.upsert p) := by
  intro i q hq
  unfold Catalog.upsert at hq
  split at hq
  case isTrue hi =>
    cases hq
    exact hi.symm
  case isFalse hi => exact h i q hq

/-- Phase 2 of `reserve_items` preserves catalog well-formedness. -/
lemma reservePhase2_wf {cat cat2 : Catalog} {items : List CartItem}
    (hwf : Catalog.WF cat) (h : reservePhase2 cat items = Except.ok cat2) :
    Catalog.WF cat2 := by
  induction items generalizing cat with
  | nil =>
    unfold reservePhase2 at h
    cases h
    exact hwf
  | cons ci rest ih =>
    unfold reservePhase2 at h
    cases hp : cat.get_product ci.product.id with
    | error e => rw [hp] at h; cases h
    | ok p =>
      rw [hp] at h
      exact ih (wf_upsert _ hwf) h

/-- Stored quantity after an upsert: the upserted product's quantity at its
own id, unchanged elsewhere. -/
lemma upsert_qty (cat : Catalog) (p : Product) (i : String) :
    Catalog.qty (cat.upsert p) i
      = if i = p.id then some p.quantity else Catalog.qty cat i := by
  unfold Catalog.qty Catalog.upsert
  split <;> simp

lemma requestedQty_nil (i : String) : requestedQty i [] = 0 := rfl

lemma requestedQty_cons (i : String) (ci : CartItem) (rest : List CartItem) :
    requestedQty i (ci :: rest)
      = (if ci.product.id = i then ci.quantity else 0) + requestedQty i rest :=
  rfl

/-- Phase 2 of `reserve_items` subtracts, at every id, the total quantity
requested for that id across the cart lines. -/
lemma reservePhase2_qty {cat cat2 : Catalog} {items : List CartItem}
    (hwf : Catalog.WF cat) (h : reservePhase2 cat items = Except.ok cat2)
    (i : String) :
    Catalog.qty cat2 i
      = (Catalog.qty cat i).map (fun q => q - requestedQty i items) := by
  induction items generalizing cat with
  | nil =>
    unfold reservePhase2 at h
    cases h
    rw [requestedQty_nil]
    cases hc : Catalog.qty cat2 i <;> simp
  | cons ci rest ih =>
    unfold reservePhase2 at h
    cases hp : cat.get_product ci.product.id with
    | error e => rw [hp] at h; cases h
    | ok p =>
      rw [hp] at h
      have hcp : cat ci.product.id = some p := get_product_ok.mp hp
      have hpid : p.id = ci.product.id := hwf _ _ hcp
      rw [ih (wf_upsert _ hwf) h, upsert_qty]
      by_cases hii : i = ci.product.id
      · have hid : i = ({ p with quantity := p.quantity - ci.quantity } : Product).id := by
          show i = p.id
          rw [hii, hpid]
        rw [if_pos hid, hii]
        have hq : Catalog.qty cat ci.product.id = some p.quantity := by
          unfold Catalog.qty
          rw [hcp]
          rfl
        rw [hq, requestedQty_cons]
        simp [sub_sub]
      · have hid : ¬ (i = ({ p with quantity := p.quantity - ci.quantity } : Product).id) := by
          show ¬ (i = p.id)
          rw [hpid]
          exact hii
        rw [if_neg hid, requestedQty_cons,
          if_neg (fun hc => hii hc.symm)]
        simp

/-- `release_items` adds back, at every id present in the catalog, the total
quantity requested for that id across the cart lines (absent ids are
skipped). -/
lemma releaseItems_qty {cat : Catalog} {items : List CartItem}
    (hwf : Catalog.WF cat) (i : String) :
    Catalog.qty (releaseItems cat items) i
      = (Catalog.qty cat i).map (fun q => q + requestedQty i items) := by
  induction items generalizing cat with
  | nil =>
    unfold releaseItems
    rw [requestedQty_nil]
    cases hc : Catalog.qty cat i <;> simp
  | cons ci rest ih =>
    unfold releaseItems
    cases hp : cat ci.product.id with
    | none =>
      rw [ih hwf, requestedQty_cons]
      by_cases hii : i = ci.product.id
      · have hq : Catalog.qty cat i = none := by
          unfold Catalog.qty
          rw [hii, hp]
          rfl
        rw [hq]
        simp
      · rw [if_neg (fun hc => hii hc.symm)]
        simp
    | some p =>
      have hpid : p.id = ci.product.id := hwf _ _ hp
      rw [ih (wf_upsert _ hwf), upsert_qty, requestedQty_cons]
      by_cases hii : i = ci.product.id
      · have hid : i = ({ p with quantity := p.quantity + ci.quantity } : Product).id := by
          show i = p.id
          rw [hii, hpid]
        rw [if_pos hid, hii]
        have hq : Catalog.qty cat ci.product.id = some p.quantity := by
          unfold Catalog.qty
          rw [hp]
          rfl
        rw [hq]
        simp [add_assoc]
      · have hid : ¬ (i = ({ p with quantity := p.quantity + ci.quantity } : Product).id) := by
          show ¬ (i = p.id)
          rw [hpid]
          exact hii
        rw [if_neg hid, if_neg (fun hc => hii hc.symm)]
        simp

/-- Releasing after a successful reservation restores every stored quantity
to its pre-reservation value. -/
lemma release_after_reserve {cat cat2 : Catalog} {items : List CartItem}
    (hwf : Catalog.WF cat) (h : reserveItems cat items = Except.ok cat2)
    (i : String) :
    Catalog.qty (releaseItems cat2 items) i = Catalog.qty cat i := by
  unfold reserveItems at h
  cases h1 : reservePhase1 cat items with
  | error e => rw [h1] at h; cases h
  | ok u =>
    rw [h1] at h
    rw [releaseItems_qty (reservePhase2_wf hwf h) i,
      reservePhase2_qty hwf h i]
    cases hc : Catalog.qty cat i <;> simp

/-- Phase 1 of `reserve_items` fails with `InsufficientInventory` when every
referenced id is stored but some line's requested quantity exceeds its stored
quantity. -/
lemma reservePhase1_short {cat : Catalog} {items : List CartItem}
    (hids : ∀ ci ∈ items, (cat ci.product.id).isSome = true)
    (hshort : ∃ ci ∈ items, ∃ p, cat ci.product.id = some p ∧
      p.quantity < ci.quantity) :
    ∃ j, reservePhase1 cat items = Except.error (Err.insufficientInventory j) := by
  induction items with
  | nil =>
    obtain ⟨ci, hmem, -⟩ := hshort
    cases hmem
  | cons ci rest ih =>
    have hci := hids ci (List.mem_cons_self ci rest)
    obtain ⟨p, hp⟩ := Option.isSome_iff_exists.mp hci
    unfold reservePhase1
    have hgp : cat.get_product ci.product.id = Except.ok p :=
      get_product_ok.mpr hp
    rw [hgp]
    dsimp only
    by_cases hlt : p.quantity < ci.quantity
    · exact ⟨p.id, by rw [if_pos hlt]⟩
    · rw [if_neg hlt]
      apply ih
      · exact fun c hc => hids c (List.mem_cons_of_mem ci hc)
      · obtain ⟨c, hcmem, q, hq, hqlt⟩ := hshort
        rcases List.mem_cons.mp hcmem with hhead | htail
        · subst hhead
          rw [hp] at hq
          cases hq
          exact absurd hqlt hlt
        · exact ⟨c, htail, q, hq, hqlt⟩

/-- C4: when every referenced product id is stored and some line requests
more than that product's stored quantity, `reserve_items` raises
`InsufficientInventory` and the catalog it leaves behind is exactly the one
passed in — phase 1 fails before the decrement phase is entered, so no line
is decremented. -/
theorem C4_reserve_atomic_failure (cat : Catalog) (items : List CartItem)
    (hids : ∀ ci ∈ items, (cat ci.product.id).isSome = true)
    (hshort : ∃ ci ∈ items, ∃ p, cat ci.product.id = some p ∧
      p.quantity < ci.quantity) :
    ∃ j, reserveItems cat items
      = Except.error (Err.insufficientInventory j, cat) := by
  obtain ⟨j, hj⟩ := reservePhase1_short hids hshort
  refine ⟨j, ?_⟩
  unfold reserveItems
  rw [hj]

/-- Catalog entry for the C4 witness: one unit in stock. -/
def c4Product : Product :=
  { id := "1", brand := "PUMA", brand_tier := BrandTier.PREMIUM
    category := "SHOES", base_price := 1000, current_price := 1000
    min_price_possible := 800, quantity := 1 }

/-- Catalog for the C4 witness. -/
def c4Cat : Catalog := Catalog.upsert (fun _ => none) c4Product

/-- Cart lines for the C4 witness: line 2 requests 5 of a product with 1 in
stock. -/
def c4Items : List CartItem :=
  [{ product := c4Product, quantity := 1 },
   { product := c4Product, quantity := 5 }]

/-- C4 witness: the atomic-failure statement evaluated at the short cart. -/
theorem C4_reserve_atomic_witness :
    (c4Cat c4Product.id = some c4Product ∧ c4Product.quantity < (5 : ℤ)) ∧
    ∃ j, reserveItems c4Cat c4Items
      = Except.error (Err.insufficientInventory j, c4Cat) := by
  have hp : c4Cat c4Product.id = some c4Product := by
    simp [c4Cat, Catalog.upsert]
  refine ⟨⟨hp, by simp [c4Product]⟩, ?_⟩
  apply C4_reserve_atomic_failure
  · intro ci hci
    rcases List.mem_cons.mp hci with h1 | h2
    · rw [h1]
      simp [c4Items, hp]
    · rcases List.mem_cons.mp h2 with h3 | h4
      · rw [h3]
        simp [c4Items, hp]
      · cases h4
  · refine ⟨{ product := c4Product, quantity := 5 }, ?_, c4Product, hp, ?_⟩
    · simp [c4Items]
    · simp [c4Product]

/-- Catalog entry for the duplicate-line scenario: ten units in stock. -/
def dupProduct : Product :=
  { id := "1", brand := "PUMA", brand_tier := BrandTier.PREMIUM
    category := "SHOES", base_price := 1000, current_price := 1000
    min_price_possible := 800, quantity := 10 }

/-- Catalog with only `dupProduct`. -/
def dupCat : Catalog := Catalog.upsert (fun _ => none) dupProduct

/-- Two cart lines for the SAME product id, 6 units each, against 10 in
stock: each line passes the per-line availability read, together they exceed
stock. -/
def dupItems : List CartItem :=
  [{ product := dupProduct, quantity := 6 },
   { product := dupProduct, quantity := 6 }]

/-- C5 (code bug): `reserve_items` accepts the duplicate-line cart — each
phase-1 read checks 10 ≥ 6 against the still-undecremented stock — and
phase 2 then decrements twice, leaving the stored quantity at −2: the stored
quantity does go negative without any rejection. -/
theorem C5_negative_quantity_bug :
    (reserveItems dupCat dupItems).isOk = true ∧
    Catalog.qty (reserveState (reserveItems dupCat dupItems)) "1"
      = some (-2) := by
  constructor
  · simp [reserveItems, reservePhase1, reservePhase2, dupCat, dupItems,
      dupProduct, Catalog.get_product, Catalog.upsert, reserveState,
      Except.isOk, Except.toBool]
  · simp [reserveItems, reservePhase1, reservePhase2, dupCat, dupItems,
      dupProduct, Catalog.get_product, Catalog.upsert, reserveState,
      Catalog.qty]

/-- A successful phase 1 of `reserve_items` means the read-only pre-check
`_validate_inventory_availability` also succeeds: same success condition. -/
lemma validate_of_phase1 {cat : Catalog} {items : List CartItem}
    (h : reservePhase1 cat items = Except.ok ()) :
    validateInventoryAvailability cat items = Except.ok () := by
  induction items with
  | nil => rfl
  | cons ci rest ih =>
    unfold reservePhase1 at h
    unfold validateInventoryAvailability
    cases hp : cat.get_product ci.product.id with
    | error e => rw [hp] at h; cases h
    | ok p =>
      rw [hp] at h
      dsimp only at h ⊢
      by_cases hlt : p.quantity < ci.quantity
      · rw [if_pos hlt] at h
        cases h
      · rw [if_neg hlt] at h ⊢
        exact ih h

/-- C6: when `calculate_cart_discounts` is called with
`reserve_inventory = true` on a well-formed catalog, the reservation
succeeds, and the subsequent price computation raises, the call propagates a
failure and the post-call catalog holds the same stored quantity as the
pre-call catalog at every id: the reservation is released before the failure
propagates. -/
theorem C6_rollback_on_failure (cat : Catalog) (strategies : List Strategy)
    (repo : DiscountRepository) (cust : CustomerProfile)
    (pi? : Option PaymentInfo) (code : Option String)
    (items : List CartItem)
    (hwf : Catalog.WF cat)
    (hres : (reserveItems cat items).isOk = true)
    (hfail : (priceItems (reserveState (reserveItems cat items)) strategies
      repo cust pi? code items).isOk = false) :
    (calculateCartDiscounts cat strategies repo cust pi? code items
      true).isOk = false ∧
    ∀ i, Catalog.qty (stateAfter (calculateCartDiscounts cat strategies repo
        cust pi? code items true)) i = Catalog.qty cat i := by
  cases hr : reserveItems cat items with
  | error ec =>
    rw [hr] at hres
    cases hres
  | ok cat2 =>
    have hph1 : ∃ u, reservePhase1 cat items = Except.ok u := by
      unfold reserveItems at hr
      cases h1 : reservePhase1 cat items with
      | error e => rw [h1] at hr; cases hr
      | ok u => exact ⟨u, rfl⟩
    obtain ⟨u, h1⟩ := hph1
    have hval : validateInventoryAvailability cat items = Except.ok () := by
      cases u
      exact validate_of_phase1 h1
    rw [hr] at hfail
    unfold reserveState at hfail
    cases hpi : priceItems cat2 strategies repo cust pi? code items with
    | ok v =>
      rw [hpi] at hfail
      cases hfail
    | error e =>
      have hcalc : calculateCartDiscounts cat strategies repo cust pi? code
          items true = Except.error (e, releaseItems cat2 items) := by
        unfold calculateCartDiscounts
        rw [hval]
        dsimp only
        rw [if_pos rfl, hr]
        dsimp only
        rw [hpi]
        dsimp only
        rw [if_pos rfl]
      rw [hcalc]
      refine ⟨rfl, fun i => ?_⟩
      unfold stateAfter
      exact release_after_reserve hwf hr i

/-- Product for the rollback witness. -/
def c6Product : Product :=
  { id := "1", brand := "PUMA", brand_tier := BrandTier.PREMIUM
    category := "SHOES", base_price := 1000, current_price := 1000
    min_price_possible := 800, quantity := 10 }

/-- Catalog for the rollback witness. -/
def c6Cat : Catalog := Catalog.upsert (fun _ => none) c6Product

/-- Cart for the rollback witness: two units, amply stocked. -/
def c6Items : List CartItem := [{ product := c6Product, quantity := 2 }]

/-- Strategy chain for the rollback witness: the coupon strategy alone; the
code "PREMIUM" passes its top-level-key eligibility check, so its
`apply_discounts` raises mid-pricing. -/
def c6Strategies : List Strategy :=
  [{ name := "CouponDiscount", kind := StrategyKind.coupon }]

lemma c6_wf : Catalog.WF c6Cat := wf_upsert c6Product wf_empty

lemma c6_reserve_ok : (reserveItems c6Cat c6Items).isOk = true := by
  simp [reserveItems, reservePhase1, reservePhase2, c6Cat, c6Items,
    c6Product, Catalog.get_product, Catalog.upsert, Except.isOk,
    Except.toBool]

lemma c6_price_fails : (priceItems (reserveState (reserveItems c6Cat
    c6Items)) c6Strategies defaultRepo premiumCustomer none (some "PREMIUM")
    c6Items).isOk = false := by
  simp [priceItems, reserveItems, reservePhase1, reservePhase2, c6Cat,
    c6Items, c6Product, c6Strategies, Catalog.get_product, Catalog.upsert,
    reserveState, runStrategies, strategyApplyDiscounts,
    couponApplyDiscounts, couponValidateDiscountCode, defaultRepo,
    Except.isOk, Except.toBool, productCopy]

/-- C6 witness: the rollback statement evaluated on the coupon-crash cart —
the stored quantity at id "1" after the failed call equals its pre-call
value. -/
theorem C6_rollback_witness :
    (reserveItems c6Cat c6Items).isOk = true ∧
    (priceItems (reserveState (reserveItems c6Cat c6Items)) c6Strategies
      defaultRepo premiumCustomer none (some "PREMIUM") c6Items).isOk
        = false ∧
    (calculateCartDiscounts c6Cat c6Strategies defaultRepo premiumCustomer
      none (some "PREMIUM") c6Items true).isOk = false ∧
    Catalog.qty (stateAfter (calculateCartDiscounts c6Cat c6Strategies
        defaultRepo premiumCustomer none (some "PREMIUM") c6Items true)) "1"
      = Catalog.qty c6Cat "1" :=
  ⟨c6_reserve_ok, c6_price_fails,
   (C6_rollback_on_failure c6Cat c6Strategies defaultRepo premiumCustomer
     none (some "PREMIUM") c6Items c6_wf c6_reserve_ok c6_price_fails).1,
   (C6_rollback_on_failure c6Cat c6Strategies defaultRepo premiumCustomer
     none (some "PREMIUM") c6Items c6_wf c6_reserve_ok c6_price_fails).2 "1"⟩

/-- When every referenced id is stored, the stock-availability check returns
a boolean (it cannot raise). -/
lemma checkIfQuantityAvailable_ok {cat : Catalog} {items : List CartItem}
    (hids : ∀ ci ∈ items, (cat ci.product.id).isSome = true) :
    ∃ b, checkIfQuantityAvailable cat items = Except.ok b := by
  induction items with
  | nil => exact ⟨true, rfl⟩
  | cons ci rest ih =>
    have hci := hids ci (List.mem_cons_self ci rest)
    obtain ⟨p, hp⟩ := Option.isSome_iff_exists.mp hci
    unfold checkIfQuantityAvailable
    rw [get_product_ok.mpr hp]
    dsimp only
    by_cases hge : p.quantity ≥ ci.quantity
    · rw [if_neg (by simpa using hge)]
      exact ih (fun c hc => hids c (List.mem_cons_of_mem ci hc))
    · exact ⟨false, by rw [if_pos (by simpa using hge)]⟩

/-- With all ids stored, `validate_discount_code` reduces to the strategy
loop: the availability check's boolean is computed and thrown away. -/
lemma validateDiscountCode_eq_loop {cat : Catalog}
    {strategies : List Strategy} {repo : DiscountRepository}
    {cust : CustomerProfile} {code : String} {items : List CartItem}
    (hids : ∀ ci ∈ items, (cat ci.product.id).isSome = true) :
    validateDiscountCode cat strategies repo cust code items
      = validateCodeLoop strategies repo cust code items := by
  obtain ⟨b, hb⟩ := checkIfQuantityAvailable_ok hids
  unfold validateDiscountCode
  rw [hb]

/-- The strategy loop returns `True` iff every registered strategy reports
eligible for every cart line. -/
lemma validateCodeLoop_ok_iff {strategies : List Strategy}
    {repo : DiscountRepository} {cust : CustomerProfile} {code : String}
    {items : List CartItem} :
    validateCodeLoop strategies repo cust code items = Except.ok true ↔
      ∀ ci ∈ items, ∀ s ∈ strategies,
        strategyValidateDiscountCode s.kind repo cust none (some code)
          ci.product = true := by
  induction items with
  | nil => simp [validateCodeLoop]
  | cons ci rest ih =>
    unfold validateCodeLoop
    cases hf : strategies.find? (fun s =>
        ¬ strategyValidateDiscountCode s.kind repo cust none (some code)
          ci.product) with
    | some s =>
      dsimp only
      constructor
      · intro h
        cases h
      · intro h
        have hs := List.find?_some hf
        have hsmem := List.mem_of_find?_eq_some hf
        simp only [decide_eq_true_eq] at hs
        exact absurd (h ci (List.mem_cons_self ci rest) s hsmem) hs
    | none =>
      dsimp only
      rw [ih]
      constructor
      · intro h c hc s hs
        rcases List.mem_cons.mp hc with hhead | htail
        · subst hhead
          have := List.find?_eq_none.mp hf s hs
          simpa using this
        · exact h c htail s hs
      · intro h c hc s hs
        exact h c (List.mem_cons_of_mem ci hc) s hs

/-- When some strategy is ineligible for some line, the strategy loop raises
`InvalidDiscountCode` naming an offending line's product. -/
lemma validateCodeLoop_error {strategies : List Strategy}
    {repo : DiscountRepository} {cust : CustomerProfile} {code : String}
    {items : List CartItem}
    (hnall : ¬ ∀ ci ∈ items, ∀ s ∈ strategies,
      strategyValidateDiscountCode s.kind repo cust none (some code)
        ci.product = true) :
    ∃ ci ∈ items,
      (∃ s ∈ strategies, strategyValidateDiscountCode s.kind repo cust none
        (some code) ci.product = false) ∧
      validateCodeLoop strategies repo cust code items
        = Except.error (Err.invalidDiscountCode code ci.product.id) := by
  induction items with
  | nil => exact absurd (by simp) hnall
  | cons ci rest ih =>
    unfold validateCodeLoop
    cases hf : strategies.find? (fun s =>
        ¬ strategyValidateDiscountCode s.kind repo cust none (some code)
          ci.product) with
    | some s =>
      refine ⟨ci, List.mem_cons_self ci rest, ⟨s, List.mem_of_find?_eq_some hf, ?_⟩, rfl⟩
      have hs := List.find?_some hf
      simp only [decide_eq_true_eq] at hs
      simpa using hs
    | none =>
      have hhead : ∀ s ∈ strategies,
          strategyValidateDiscountCode s.kind repo cust none (some code)
            ci.product = true := by
        intro s hs
        have := List.find?_eq_none.mp hf s hs
        simpa using this
      have hrest : ¬ ∀ c ∈ rest, ∀ s ∈ strategies,
          strategyValidateDiscountCode s.kind repo cust none (some code)
            c.product = true := by
        intro hall
        apply hnall
        intro c hc s hs
        rcases List.mem_cons.mp hc with hh | ht
        · subst hh
          exact hhead s hs
        · exact hall c ht s hs
      obtain ⟨c, hc, hfail, hloop⟩ := ih hrest
      exact ⟨c, List.mem_cons_of_mem ci hc, hfail, hloop⟩

/-- The strategy loop never raises `InsufficientInventory`. -/
lemma validateCodeLoop_no_insufficient {strategies : List Strategy}
    {repo : DiscountRepository} {cust : CustomerProfile} {code : String}
    {items : List CartItem} (i : String) :
    validateCodeLoop strategies repo cust code items
      ≠ Except.error (Err.insufficientInventory i) := by
  induction items with
  | nil => simp [validateCodeLoop]
  | cons ci rest ih =>
    unfold validateCodeLoop
    cases hf : strategies.find? (fun s =>
        ¬ strategyValidateDiscountCode s.kind repo cust none (some code)
          ci.product) with
    | some s => simp
    | none => exact ih

/-- C9: with every cart product id stored, `validate_discount_code` returns
true iff every registered strategy reports eligible for every cart line
(including strategies unrelated to the code, and with the Payment strategy
consulted WITHOUT payment info, as the service passes none); whenever some
strategy reports ineligible for some line, it raises `InvalidDiscountCode`
naming that line's product. -/
theorem C9_all_strategies_must_pass (cat : Catalog)
    (strategies : List Strategy) (repo : DiscountRepository)
    (cust : CustomerProfile) (code : String) (items : List CartItem)
    (hids : ∀ ci ∈ items, (cat ci.product.id).isSome = true) :
    (validateDiscountCode cat strategies repo cust code items
        = Except.ok true ↔
      ∀ ci ∈ items, ∀ s ∈ strategies,
        strategyValidateDiscountCode s.kind repo cust none (some code)
          ci.product = true) ∧
    ((¬ ∀ ci ∈ items, ∀ s ∈ strategies,
        strategyValidateDiscountCode s.kind repo cust none (some code)
          ci.product = true) →
      ∃ ci ∈ items,
        (∃ s ∈ strategies, strategyValidateDiscountCode s.kind repo cust
          none (some code) ci.product = false) ∧
        validateDiscountCode cat strategies repo cust code items
          = Except.error (Err.invalidDiscountCode code ci.product.id)) := by
  rw [validateDiscountCode_eq_loop hids]
  exact ⟨validateCodeLoop_ok_iff, validateCodeLoop_error⟩

/-- C9 witness: with only the Brand strategy registered and an all-PUMA
premium cart, validation returns true; the hypotheses and the eligible side
are evaluated concretely. -/
theorem C9_all_strategies_witness :
    (c6Items.all (fun ci => (c6Cat ci.product.id).isSome)) = true ∧
    validateDiscountCode c6Cat
      [{ name := "BrandDiscount", kind := StrategyKind.brand }]
      defaultRepo premiumCustomer "ANYCODE" c6Items = Except.ok true := by
  have hids : ∀ ci ∈ c6Items, (c6Cat ci.product.id).isSome = true := by
    intro ci hci
    rcases List.mem_cons.mp hci with h1 | h2
    · rw [h1]
      simp [c6Cat, c6Items, Catalog.upsert, c6Product]
    · cases h2
  refine ⟨by simp [c6Items, c6Cat, Catalog.upsert, c6Product], ?_⟩
  refine (C9_all_strategies_must_pass c6Cat
    [{ name := "BrandDiscount", kind := StrategyKind.brand }]
    defaultRepo premiumCustomer "ANYCODE" c6Items hids).1.mpr ?_
  intro ci hci s hs
  rcases List.mem_cons.mp hci with h1 | h2
  · rcases List.mem_cons.mp hs with h3 | h4
    · rw [h1, h3]
      simp [strategyValidateDiscountCode, brandValidateDiscountCode,
        alistMem, defaultRepo, premiumCustomer, c6Product, List.find?]
    · cases h4
  · cases h2

/-- C10: for carts whose product ids all exist, the outcome of
`validate_discount_code` is the same over any two such catalogs — stored
quantities are read but the boolean is discarded — and it never raises
`InsufficientInventory`. -/
theorem C10_stock_check_discarded (cat1 cat2 : Catalog)
    (strategies : List Strategy) (repo : DiscountRepository)
    (cust : CustomerProfile) (code : String) (items : List CartItem)
    (h1 : ∀ ci ∈ items, (cat1 ci.product.id).isSome = true)
    (h2 : ∀ ci ∈ items, (cat2 ci.product.id).isSome = true) :
    validateDiscountCode cat1 strategies repo cust code items
      = validateDiscountCode cat2 strategies repo cust code items ∧
    ∀ i, validateDiscountCode cat1 strategies repo cust code items
      ≠ Except.error (Err.insufficientInventory i) := by
  rw [validateDiscountCode_eq_loop h1, validateDiscountCode_eq_loop h2]
  exact ⟨rfl, fun i => validateCodeLoop_no_insufficient i⟩

/-- Catalog identical to `c6Cat` except the stock is zero — insufficient for
the witness cart. -/
def c10ZeroStockCat : Catalog :=
  Catalog.upsert (fun _ => none) { c6Product with quantity := 0 }

/-- C10 witness: zero stock versus ample stock gives the identical outcome,
and the zero-stock call is not an `InsufficientInventory` failure. -/
theorem C10_stock_check_witness :
    (c6Items.all (fun ci => (c10ZeroStockCat ci.product.id).isSome)) = true ∧
    (c6Items.all (fun ci => (c6Cat ci.product.id).isSome)) = true ∧
    validateDiscountCode c10ZeroStockCat
        [{ name := "CategoryDiscount", kind := StrategyKind.category },
         { name := "BrandDiscount", kind := StrategyKind.brand },
         { name := "PaymentDiscount", kind := StrategyKind.payment },
         { name := "CouponDiscount", kind := StrategyKind.coupon }]
        defaultRepo premiumCustomer "NIKE10" c6Items
      = validateDiscountCode c6Cat
        [{ name := "CategoryDiscount", kind := StrategyKind.category },
         { name := "BrandDiscount", kind := StrategyKind.brand },
         { name := "PaymentDiscount", kind := StrategyKind.payment },
         { name := "CouponDiscount", kind := StrategyKind.coupon }]
        defaultRepo premiumCustomer "NIKE10" c6Items ∧
    validateDiscountCode c10ZeroStockCat
        [{ name := "CategoryDiscount", kind := StrategyKind.category },
         { name := "BrandDiscount", kind := StrategyKind.brand },
         { name := "PaymentDiscount", kind := StrategyKind.payment },
         { name := "CouponDiscount", kind := StrategyKind.coupon }]
        defaultRepo premiumCustomer "NIKE10" c6Items
      ≠ Except.error (Err.insufficientInventory "1") := by
  have h1 : ∀ ci ∈ c6Items, (c10ZeroStockCat ci.product.id).isSome = true := by
    intro ci hci
    rcases List.mem_cons.mp hci with ha | hb
    · rw [ha]
      simp [c10ZeroStockCat, c6Items, Catalog.upsert, c6Product]
    · cases hb
  have h2 : ∀ ci ∈ c6Items, (c6Cat ci.product.id).isSome = true := by
    intro ci hci
    rcases List.mem_cons.mp hci with ha | hb
    · rw [ha]
      simp [c6Cat, c6Items, Catalog.upsert, c6Product]
    · cases hb
  refine ⟨by simp [c6Items, c10ZeroStockCat, Catalog.upsert, c6Product],
    by simp [c6Items, c6Cat, Catalog.upsert, c6Product],
    (C10_stock_check_discarded c10ZeroStockCat c6Cat _ defaultRepo
      premiumCustomer "NIKE10" c6Items h1 h2).1,
    (C10_stock_check_discarded c10ZeroStockCat c6Cat _ defaultRepo
      premiumCustomer "NIKE10" c6Items h1 h2).2 "1"⟩

/-- The NIKE demo product of `main.py`'s factory (`p3`). -/
def nikeProduct : Product :=
  { id := "3", brand := "NIKE", brand_tier := BrandTier.PREMIUM
    category := "SHOES", base_price := 1000, current_price := 1000
    min_price_possible := 850, quantity := 10 }

/-- Catalog holding the NIKE product. -/
def nikeCat : Catalog := Catalog.upsert (fun _ => none) nikeProduct

/-- A premium cart with one NIKE/SHOES line. -/
def nikeItems : List CartItem := [{ product := nikeProduct, quantity := 1 }]

/-- A strategy registration with Category, Brand and Coupon (every
non-payment strategy passes for this cart by brand/category membership). -/
def c1Strategies : List Strategy :=
  [{ name := "CategoryDiscount", kind := StrategyKind.category },
   { name := "BrandDiscount", kind := StrategyKind.brand },
   { name := "CouponDiscount", kind := StrategyKind.coupon }]

/-- C1 (code bug): "NIKE10" IS in the coupon table's PREMIUM row, and the
premium NIKE/SHOES cart passes the Brand and Category checks, yet the Coupon
strategy's eligibility check is false — it probes "NIKE10" against the
TOP-LEVEL keys of the tier-keyed coupon table (the tier strings), mixing the
two table shapes — so `validate_discount_code("NIKE10", …)` raises
`InvalidDiscountCode` instead of returning true. -/
theorem C1_coupon_scope_bug :
    couponValidateDiscountCode defaultRepo (some "NIKE10") = false ∧
    alistMem (couponTableRow defaultRepo CustomerTier.PREMIUM.str) "NIKE10"
      = true ∧
    brandValidateDiscountCode defaultRepo premiumCustomer nikeProduct
      = true ∧
    categoryValidateDiscountCode defaultRepo premiumCustomer nikeProduct
      = true ∧
    validateDiscountCode nikeCat c1Strategies defaultRepo premiumCustomer
        "NIKE10" nikeItems
      = Except.error (Err.invalidDiscountCode "NIKE10" "3") := by
  refine ⟨?_, ?_, ?_, ?_, ?_⟩
  · simp [couponValidateDiscountCode, defaultRepo]
  · simp [alistMem, couponTableRow, defaultRepo, CustomerTier.str,
      List.find?]
  · simp [brandValidateDiscountCode, alistMem, defaultRepo,
      premiumCustomer, nikeProduct, List.find?]
  · simp [categoryValidateDiscountCode, alistMem, defaultRepo,
      premiumCustomer, nikeProduct, List.find?]
  · simp [validateDiscountCode, checkIfQuantityAvailable, nikeCat,
      nikeItems, nikeProduct, Catalog.get_product, Catalog.upsert,
      validateCodeLoop, c1Strategies, strategyValidateDiscountCode,
      brandValidateDiscountCode, categoryValidateDiscountCode,
      couponValidateDiscountCode, alistMem, defaultRepo, premiumCustomer,
      List.find?]
